import Mathlib

/-!
Shallow embedding of the Knowledge-Base front-end (Angular + RxJS).

Embedded source files:
- frontend/src/app/services/knowledge-base.service.ts (KnowledgeBaseService)
- frontend/src/app/components/query/query.component.ts (QueryComponent)
- frontend/src/app/components/document-list/document-list.component.ts
  (DocumentListComponent)

Asynchronous callbacks are modelled by splitting each operation into a
synchronous start function (everything that runs before the HTTP call
resolves) and explicit resolution functions for the next/error callbacks.
JavaScript regular-expression matching (the citation extraction in
QueryComponent.submitQuery) is modelled by an executable leftmost-match
backtracking matcher for the two concrete patterns the code uses.
-/

namespace KB

/-! Data model, from knowledge-base.service.ts and query.component.ts. -/

/-- Document interface from knowledge-base.service.ts: filename, path,
optional last_modified. -/
structure Document where
  filename : String
  path : String
  last_modified : Option String
  deriving DecidableEq, Repr

/-- Role of a chat transcript entry in QueryComponent.messages. -/
inductive Role where
  | user
  | assistant
  deriving DecidableEq, Repr

/-- One entry of QueryComponent.messages: role, content, optional sources.
The user entry is pushed without a sources field (none); the assistant
entry always carries one (some sources). -/
structure ChatMessage where
  role : Role
  content : String
  sources : Option (List String)
  deriving DecidableEq, Repr

/-- Mutable fields of QueryComponent: query, isLoading, errorMessage,
messages. -/
structure QueryState where
  query : String
  isLoading : Bool
  errorMessage : String
  messages : List ChatMessage
  deriving DecidableEq, Repr

/-- Loosely typed response of POST /query: optional answer, optional
source_documents. An absent or null field is none; a present array field,
even an empty one, is some (a present array is truthy in JavaScript). -/
structure QueryResponse where
  answer : Option String
  source_documents : Option (List String)
  deriving DecidableEq, Repr

/-! API client, from knowledge-base.service.ts. -/

/-- KnowledgeBaseService.apiUrl, the fixed base address. -/
def apiUrl : String := "http://localhost:8000"

/-- KnowledgeBaseService.getDownloadUrl: the template literal
concatenating apiUrl, the literal "/download/", and the filename, with no
encoding and no network call. -/
def getDownloadUrl (filename : String) : String :=
  apiUrl ++ "/download/" ++ filename

/-- DocumentListComponent.getDownloadUrl forwards to the service. -/
def documentListGetDownloadUrl (filename : String) : String :=
  getDownloadUrl filename

/-! Citation extraction: the JavaScript global regex match
answerText.match of the pattern open-paren Source: dot-star-lazy id:
capture-lazy close-paren, from query.component.ts lines 49-55.
A JavaScript dot matches any character except a line terminator. -/

/-- Characters the JavaScript dot does not match (line terminators). -/
def dotChar (c : Char) : Bool :=
  !(c = '\n' || c = '\r' || c = ' ' || c = ' ')

/-- Match a literal character sequence at the head of the input, returning
the remainder on success. -/
def dropLit : List Char → List Char → Option (List Char)
  | [], s => some s
  | _ :: _, [] => none
  | p :: ps, c :: cs => if c = p then dropLit ps cs else none

/-- Lazy match of dot-star-lazy followed by a literal close-paren: the
number of characters consumed before the first close-paren, provided all
of them are dot characters. This is the capture group of the pattern. -/
def findClose : List Char → Option Nat
  | [] => none
  | c :: rest =>
    if c = ')' then some 0
    else if dotChar c then (findClose rest).map (· + 1)
    else none

/-- The literal id: part of the pattern. -/
def idLit : List Char := ['i', 'd', ':']

/-- The literal open-paren Source: part of the pattern. -/
def sourceLit : List Char := ['(', 'S', 'o', 'u', 'r', 'c', 'e', ':', ' ']

/-- Match the tail of the pattern (dot-star-lazy, then id:, then the lazy
capture, then close-paren) at the head of the input, returning the total
number of characters consumed. The leading dot-star-lazy expands minimally,
backtracking one character at a time, as a lazy quantifier does. -/
def matchAid : List Char → Option Nat
  | [] => none
  | c :: rest =>
    match dropLit idLit (c :: rest) with
    | some r =>
      match findClose r with
      | some m => some (idLit.length + m + 1)
      | none => if dotChar c then (matchAid rest).map (· + 1) else none
    | none => if dotChar c then (matchAid rest).map (· + 1) else none

/-- Match the whole pattern at the head of the input, returning the length
of the full match. -/
def matchPatternAt (s : List Char) : Option Nat :=
  match dropLit sourceLit s with
  | some r => (matchAid r).map (fun v => sourceLit.length + v)
  | none => none

/-- Global matching: repeatedly find the leftmost match, emit the matched
substring, and resume after it, as String.prototype.match with the g flag
does. Fuel bounds the recursion; every step consumes at least one
character, so fuel equal to the input length suffices. -/
def findMatchesAux : Nat → List Char → List (List Char)
  | 0, _ => []
  | _ + 1, [] => []
  | n + 1, c :: rest =>
    match matchPatternAt (c :: rest) with
    | some len => (c :: rest).take len :: findMatchesAux n ((c :: rest).drop len)
    | none => findMatchesAux n rest

/-- All full matches of the citation pattern in the input. -/
def findMatches (s : List Char) : List (List Char) :=
  findMatchesAux s.length s

/-- The inner non-global match of the pattern id: capture-lazy close-paren
applied to a full match: the leftmost occurrence of id: that is followed
by a close-paren on the same line; the capture group is returned. -/
def extractId : List Char → Option (List Char)
  | [] => none
  | c :: rest =>
    match dropLit idLit (c :: rest) with
    | some r =>
      match findClose r with
      | some m => some (r.take m)
      | none => extractId rest
    | none => extractId rest

/-- Whitespace trimming of a character list, both ends. -/
def trimChars (s : List Char) : List Char :=
  ((s.dropWhile Char.isWhitespace).reverse.dropWhile Char.isWhitespace).reverse

/-- JavaScript String.prototype.trim on a Lean string: whitespace removed
from both ends. -/
def jsTrim (s : String) : String := String.mk (trimChars s.toList)

/-- Order-preserving deduplication with a seen accumulator: the insertion
order of a JavaScript Set spread into an array. -/
def dedupAux : List String → List String → List String
  | _, [] => []
  | seen, x :: xs =>
    if seen.contains x then dedupAux seen xs
    else x :: dedupAux (seen ++ [x]) xs

/-- First-seen-order deduplication. -/
def dedupFS (l : List String) : List String := dedupAux [] l

/-- Per-match id extraction of query.component.ts line 51-54: re-match the
inner pattern against the full match, take the capture trimmed, or the
empty string when the inner match fails. -/
def matchIdOrEmpty (m : List Char) : String :=
  match extractId m with
  | some b => String.mk (trimChars b)
  | none => ""

/-- The whole source-extraction pipeline of query.component.ts lines
49-55: global match, map to trimmed capture, deduplicate preserving
first-seen order, drop empty identifiers. When there is no match at all
the code leaves sources as the empty list, which the empty pipeline also
yields. -/
def extractSources (answer : String) : List String :=
  (dedupFS ((findMatches answer.toList).map matchIdOrEmpty)).filter
    (fun id => id != "")

/-! QueryComponent, from query.component.ts. -/

/-- Fallback answer of query.component.ts line 58. -/
def fallbackAnswer : String :=
  "No relevant information found. Please rephrase or try another query."

/-- Validation error of query.component.ts line 30. -/
def validationError : String := "Please enter a query"

/-- Failure message of query.component.ts line 65. -/
def queryFailureMessage : String :=
  "An error occurred while processing your query. Please try again."

/-- Initial state of a fresh QueryComponent. -/
def initQueryState : QueryState :=
  { query := "", isLoading := false, errorMessage := "", messages := [] }

/-- The synchronous part of QueryComponent.submitQuery, lines 29-40:
reject when the trimmed query is falsy (setting the validation error and
issuing no request); otherwise set isLoading, clear errorMessage, push the
user entry with the raw query text, clear the input, and issue the request
body. The second component is the request handed to
KnowledgeBaseService.queryKnowledgeBase, or none when no call is made. -/
def submitQueryStart (s : QueryState) : QueryState × Option String :=
  if (jsTrim s.query).isEmpty then
    ({ s with errorMessage := validationError }, none)
  else
    ({ query := "",
       isLoading := true,
       errorMessage := "",
       messages := s.messages ++
         [{ role := Role.user, content := s.query, sources := none }] },
     some s.query)

/-- Truthiness of response?.answer and response.answer.trim() at line 44:
the answer is present, non-empty, and non-blank after trimming. -/
def answerNonBlank (r : QueryResponse) : Bool :=
  match r.answer with
  | some a => !a.isEmpty && !(jsTrim a).isEmpty
  | none => false

/-- The next callback of submitQuery, lines 41-62: choose the display text
and sources, append one assistant entry, clear isLoading. A present
source_documents array (even empty) takes precedence over the regex
extraction; a blank answer forces the fallback text with empty sources. -/
def submitQueryNext (s : QueryState) (r : QueryResponse) : QueryState :=
  let pair : String × List String :=
    if answerNonBlank r then
      match r.source_documents with
      | some docs => (r.answer.getD "", docs)
      | none => (r.answer.getD "", extractSources (r.answer.getD ""))
    else
      (fallbackAnswer, [])
  { s with
    messages := s.messages ++
      [{ role := Role.assistant, content := pair.1, sources := some pair.2 }],
    isLoading := false }

/-- The error callback of submitQuery, lines 63-67: set the fixed failure
message and clear isLoading; the transcript is untouched. -/
def submitQueryError (s : QueryState) : QueryState :=
  { s with errorMessage := queryFailureMessage, isLoading := false }

/-- Number of assistant entries in a transcript. -/
def countAssistant (ms : List ChatMessage) : Nat :=
  (ms.filter (fun m => m.role == Role.assistant)).length

/-! QueryComponent.onKeydown, lines 17-22. -/

/-- The fields of the keyboard event the handler reads. -/
structure KeyEvent where
  key : String
  shiftKey : Bool
  deriving DecidableEq, Repr

/-- onKeydown: when the key is Enter and Shift is not held, call
preventDefault and submit once; otherwise do nothing. The first component
is the number of submitQuery calls triggered, the second whether
preventDefault was called. -/
def onKeydown (e : KeyEvent) : Nat × Bool :=
  if e.key == "Enter" && !e.shiftKey then (1, true) else (0, false)

/-! DocumentListComponent, from document-list.component.ts. -/

/-- Mutable fields of DocumentListComponent relevant to fetching, plus
pollActive: whether the subscription created in ngOnInit (interval piped
through switchMap) is still open. Under the Rx observable contract an
error notification is terminal: after the error callback runs, the
subscription is disposed, unsubscribing the interval source, so no later
tick is delivered. -/
structure DocState where
  documents : List Document
  isLoading : Bool
  pollActive : Bool
  deriving DecidableEq, Repr

/-- Field initializers of DocumentListComponent (documents = [], isLoading
= true) together with the freshly opened periodic subscription. -/
def initDocState : DocState :=
  { documents := [], isLoading := true, pollActive := true }

/-- Outcome of one getDocuments HTTP call. -/
inductive FetchResult where
  | ok (docs : List Document)
  | err
  deriving DecidableEq, Repr

/-- Start of loadDocuments, line 39: set isLoading. -/
def loadDocumentsStart (s : DocState) : DocState :=
  { s with isLoading := true }

/-- Next callback of loadDocuments, lines 41-44: replace documents, clear
isLoading. -/
def loadDocumentsNext (s : DocState) (docs : List Document) : DocState :=
  { s with documents := docs, isLoading := false }

/-- Error callback of loadDocuments, lines 45-48: log and clear isLoading,
leaving documents untouched. -/
def loadDocumentsError (s : DocState) : DocState :=
  { s with isLoading := false }

/-- One 10-second tick of the periodic subscription of ngOnInit, lines
26-35, given the outcome the getDocuments call would have. While the
subscription is open, a tick performs a fetch: on success the next
callback replaces documents; on error the error callback only logs, and
the error notification closes the subscription (Rx errors are terminal
through switchMap). Once the subscription is closed a tick performs no
fetch at all. The second component records whether this tick performed a
fetch. -/
def intervalTick (s : DocState) (r : FetchResult) : DocState × Bool :=
  if s.pollActive then
    match r with
    | FetchResult.ok docs => ({ s with documents := docs }, true)
    | FetchResult.err => ({ s with pollActive := false }, true)
  else (s, false)

end KB

/-! Theorems. -/

namespace KB

/-- Claim C1, counterexample: at the concrete state with query text
"hello", resolving the HTTP call with failure appends no assistant entry,
so it is false that exactly one assistant entry is appended whether the
call resolves with success or with failure. -/
theorem C1_counterexample :
    ¬ (countAssistant
        (submitQueryError
          (submitQueryStart ⟨"hello", false, "", []⟩).1).messages
        = countAssistant (submitQueryStart ⟨"hello", false, "", []⟩).1.messages
          + 1) := by
  decide

/-- Claim C1, amended: for every state whose trimmed query text is
non-empty, submitQuery issues the request carrying the raw query text,
appends the user transcript entry before the call resolves, appends
exactly one assistant entry when the call resolves with success, and
appends no entry at all when it resolves with failure. -/
theorem C1_amended (s : QueryState) (h : (jsTrim s.query).isEmpty = false) :
    (submitQueryStart s).2 = some s.query
    ∧ (submitQueryStart s).1.messages
        = s.messages ++ [{ role := Role.user, content := s.query, sources := none }]
    ∧ (∀ r : QueryResponse,
        countAssistant (submitQueryNext (submitQueryStart s).1 r).messages
          = countAssistant (submitQueryStart s).1.messages + 1)
    ∧ (submitQueryError (submitQueryStart s).1).messages
        = (submitQueryStart s).1.messages := by
  refine ⟨?_, ?_, ?_, ?_⟩
  · simp [submitQueryStart, h]
  · simp [submitQueryStart, h]
  · intro r
    simp [submitQueryNext, countAssistant, List.filter_append]
  · simp [submitQueryError]

/-- Claim C1, witness: the amended theorem applied at the query "hello"
and one concrete success response. -/
theorem C1_witness :
    ((jsTrim "hello").isEmpty = false)
    ∧ (submitQueryStart ⟨"hello", false, "", []⟩).2 = some "hello"
    ∧ countAssistant
        (submitQueryNext (submitQueryStart ⟨"hello", false, "", []⟩).1
          ⟨some "hi", none⟩).messages
        = countAssistant (submitQueryStart ⟨"hello", false, "", []⟩).1.messages
          + 1
    ∧ (submitQueryError (submitQueryStart ⟨"hello", false, "", []⟩).1).messages
        = (submitQueryStart ⟨"hello", false, "", []⟩).1.messages :=
  ⟨by decide,
   (C1_amended ⟨"hello", false, "", []⟩ (by decide)).1,
   (C1_amended ⟨"hello", false, "", []⟩ (by decide)).2.2.1 ⟨some "hi", none⟩,
   (C1_amended ⟨"hello", false, "", []⟩ (by decide)).2.2.2⟩

/-- Claim C2: for a success response with a non-blank answer and no
source_documents field, the appended assistant entry carries the answer
verbatim with the sources produced by the extraction pipeline (global
match, trimmed captures, first-seen-order deduplication, empty
identifiers dropped); on the Paris answer of the spec the derived sources
are the list 42, 7. -/
theorem C2_regex_sources (s : QueryState) (a : String)
    (h1 : a.isEmpty = false) (h2 : (jsTrim a).isEmpty = false) :
    (submitQueryNext s { answer := some a, source_documents := none }).messages
      = s.messages ++
        [{ role := Role.assistant, content := a,
           sources := some
             ((dedupFS ((findMatches a.toList).map matchIdOrEmpty)).filter
               (fun id => id != "")) }]
    ∧ extractSources
        "Paris (Source: doc1, id:42) (Source: doc2, id:42) (Source: doc3, id:7)"
      = ["42", "7"] := by
  constructor
  · simp [submitQueryNext, answerNonBlank, h1, h2, extractSources]
  · decide

/-- Claim C2, witness: the theorem applied at the empty initial state and
the Paris answer of the spec. -/
theorem C2_witness :
    (("Paris (Source: doc1, id:42) (Source: doc2, id:42) (Source: doc3, id:7)"
        : String).isEmpty = false)
    ∧ ((jsTrim
        "Paris (Source: doc1, id:42) (Source: doc2, id:42) (Source: doc3, id:7)").isEmpty
        = false)
    ∧ extractSources
        "Paris (Source: doc1, id:42) (Source: doc2, id:42) (Source: doc3, id:7)"
      = ["42", "7"] :=
  ⟨by decide, by decide,
   (C2_regex_sources initQueryState
     "Paris (Source: doc1, id:42) (Source: doc2, id:42) (Source: doc3, id:7)"
     (by decide) (by decide)).2⟩

/-- Claim C3: for every success response whose answer is absent, empty, or
whitespace-only, the appended assistant entry carries the fixed fallback
string with empty sources, even when the response carries a non-empty
source_documents sequence. -/
theorem C3_blank_answer_fallback (s : QueryState) (r : QueryResponse)
    (h : r.answer = none
      ∨ ∃ a, r.answer = some a ∧ (jsTrim a).isEmpty = true) :
    (submitQueryNext s r).messages
      = s.messages ++
        [{ role := Role.assistant, content := fallbackAnswer,
           sources := some ([] : List String) }] := by
  have hb : answerNonBlank r = false := by
    rcases h with h | ⟨a, ha, ht⟩
    · simp [answerNonBlank, h]
    · simp [answerNonBlank, ha, ht]
  simp [submitQueryNext, hb]

/-- Claim C3, witness: the theorem applied at the empty initial state and
the response of the spec with empty answer and source_documents a, b. -/
theorem C3_witness :
    ((⟨some "", some ["a", "b"]⟩ : QueryResponse).answer = none
      ∨ ∃ a, (⟨some "", some ["a", "b"]⟩ : QueryResponse).answer = some a
          ∧ (jsTrim a).isEmpty = true)
    ∧ (submitQueryNext initQueryState ⟨some "", some ["a", "b"]⟩).messages
      = initQueryState.messages ++
        [{ role := Role.assistant, content := fallbackAnswer,
           sources := some ([] : List String) }] :=
  ⟨Or.inr ⟨"", rfl, by decide⟩,
   C3_blank_answer_fallback initQueryState ⟨some "", some ["a", "b"]⟩
     (Or.inr ⟨"", rfl, by decide⟩)⟩

/-- Claim C4: for every success response with a non-blank answer and an
explicit source_documents sequence, the appended assistant entry carries
the answer verbatim and exactly that sequence; the regex extraction is not
applied. -/
theorem C4_explicit_source_documents (s : QueryState) (a : String)
    (docs : List String)
    (h1 : a.isEmpty = false) (h2 : (jsTrim a).isEmpty = false) :
    (submitQueryNext s { answer := some a, source_documents := some docs }).messages
      = s.messages ++
        [{ role := Role.assistant, content := a, sources := some docs }] := by
  simp [submitQueryNext, answerNonBlank, h1, h2]

/-- Claim C4, witness: the theorem applied at the empty initial state, the
answer Result text, and source_documents x, as in the spec; note the
answer contains no citation pattern, so the explicit list is what is kept. -/
theorem C4_witness :
    (("Result text" : String).isEmpty = false)
    ∧ ((jsTrim "Result text").isEmpty = false)
    ∧ (submitQueryNext initQueryState
        { answer := some "Result text", source_documents := some ["x"] }).messages
      = initQueryState.messages ++
        [{ role := Role.assistant, content := "Result text",
           sources := some ["x"] }] :=
  ⟨by decide, by decide,
   C4_explicit_source_documents initQueryState "Result text" ["x"]
     (by decide) (by decide)⟩

/-- Claim C5: for every state whose trimmed query text is empty,
submitQuery issues no HTTP request, sets the validation error message, and
leaves the transcript (and isLoading) unchanged. -/
theorem C5_blank_query_rejected (s : QueryState)
    (h : (jsTrim s.query).isEmpty = true) :
    (submitQueryStart s).2 = none
    ∧ (submitQueryStart s).1.errorMessage = validationError
    ∧ (submitQueryStart s).1.messages = s.messages
    ∧ (submitQueryStart s).1.isLoading = s.isLoading := by
  refine ⟨?_, ?_, ?_, ?_⟩ <;> simp [submitQueryStart, h]

/-- Claim C5, witness: the theorem applied at a state whose query is three
spaces. -/
theorem C5_witness :
    ((jsTrim "   ").isEmpty = true)
    ∧ (submitQueryStart ⟨"   ", false, "", []⟩).2 = none
    ∧ (submitQueryStart ⟨"   ", false, "", []⟩).1.errorMessage = validationError
    ∧ (submitQueryStart ⟨"   ", false, "", []⟩).1.messages = []
    ∧ (submitQueryStart ⟨"   ", false, "", []⟩).1.isLoading = false :=
  ⟨by decide,
   (C5_blank_query_rejected ⟨"   ", false, "", []⟩ (by decide)).1,
   (C5_blank_query_rejected ⟨"   ", false, "", []⟩ (by decide)).2.1,
   (C5_blank_query_rejected ⟨"   ", false, "", []⟩ (by decide)).2.2.1,
   (C5_blank_query_rejected ⟨"   ", false, "", []⟩ (by decide)).2.2.2⟩

/-- Claim C10: for every state whose trimmed query text is non-empty,
submitQuery clears the previously displayed error message, sets the
loading flag, and only then issues the request. -/
theorem C10_clears_error_sets_loading (s : QueryState)
    (h : (jsTrim s.query).isEmpty = false) :
    (submitQueryStart s).1.errorMessage = ""
    ∧ (submitQueryStart s).1.isLoading = true
    ∧ (submitQueryStart s).2 = some s.query := by
  refine ⟨?_, ?_, ?_⟩ <;> simp [submitQueryStart, h]

/-- Claim C10, witness: the theorem applied at a state still displaying an
earlier validation error. -/
theorem C10_witness :
    ((jsTrim "why is the sky blue").isEmpty = false)
    ∧ (submitQueryStart ⟨"why is the sky blue", false, "Please enter a query", []⟩).1.errorMessage = ""
    ∧ (submitQueryStart ⟨"why is the sky blue", false, "Please enter a query", []⟩).1.isLoading = true
    ∧ (submitQueryStart ⟨"why is the sky blue", false, "Please enter a query", []⟩).2
        = some "why is the sky blue" :=
  ⟨by decide,
   (C10_clears_error_sets_loading
     ⟨"why is the sky blue", false, "Please enter a query", []⟩ (by decide)).1,
   (C10_clears_error_sets_loading
     ⟨"why is the sky blue", false, "Please enter a query", []⟩ (by decide)).2.1,
   (C10_clears_error_sets_loading
     ⟨"why is the sky blue", false, "Please enter a query", []⟩ (by decide)).2.2⟩

/-- Claim C6: evaluation of the periodic resync at a concrete trace. The
first 10-second tick fails; the Rx error notification closes the
subscription, so the following tick performs no fetch and leaves the
document list untouched even though the server would now answer with a
document. The claim that periodic refetches still occur after a
background failure does not hold of the code. -/
theorem C6_poll_stops_after_failure :
    (intervalTick ((intervalTick initDocState FetchResult.err).1)
        (FetchResult.ok [⟨"a.txt", "files/a.txt", none⟩])).2 = false
    ∧ (intervalTick ((intervalTick initDocState FetchResult.err).1)
        (FetchResult.ok [⟨"a.txt", "files/a.txt", none⟩])).1.documents = []
    ∧ (intervalTick initDocState FetchResult.err).2 = true := by
  decide

/-- Claim C7: a background fetch failure on the periodic timer leaves the
held document sequence unchanged in every state, and a failed initial
fetch from the fresh component state leaves the document sequence empty
with the loading flag cleared. -/
theorem C7_fetch_failures (s : DocState) :
    (intervalTick s FetchResult.err).1.documents = s.documents
    ∧ (loadDocumentsError (loadDocumentsStart initDocState)).documents = []
    ∧ (loadDocumentsError (loadDocumentsStart initDocState)).isLoading = false := by
  refine ⟨?_, rfl, rfl⟩
  cases h : s.pollActive <;> simp [intervalTick, h]

/-- Claim C8: for every filename, the download URL is exactly the
concatenation of the fixed base address, the literal /download/, and the
filename, with no encoding and no network call, and the component
getDownloadUrl forwards to the service unchanged. -/
theorem C8_download_url (filename : String) :
    getDownloadUrl filename = apiUrl ++ "/download/" ++ filename
    ∧ documentListGetDownloadUrl filename = getDownloadUrl filename
    ∧ apiUrl = "http://localhost:8000" :=
  ⟨rfl, rfl, rfl⟩

/-- Claim C9: for every keydown event, Enter without Shift triggers
exactly one submission and suppresses the default behaviour, and Enter
with Shift triggers no submission and no suppression. -/
theorem C9_enter_submits (e : KeyEvent) :
    (e.key = "Enter" → e.shiftKey = false → onKeydown e = (1, true))
    ∧ (e.key = "Enter" → e.shiftKey = true → onKeydown e = (0, false)) := by
  constructor
  · intro hk hs
    simp [onKeydown, hk, hs]
  · intro hk hs
    simp [onKeydown, hk, hs]

/-- Claim C9, witness: the theorem applied at the two concrete Enter
events. -/
theorem C9_witness :
    onKeydown { key := "Enter", shiftKey := false } = (1, true)
    ∧ onKeydown { key := "Enter", shiftKey := true } = (0, false) :=
  ⟨(C9_enter_submits ⟨"Enter", false⟩).1 rfl rfl,
   (C9_enter_submits ⟨"Enter", true⟩).2 rfl rfl⟩

end KB
